import Mathlib

/-!
Shallow embedding of src/src/uvw/tty.hpp (the uvw TTYHandle wrapper over the
libuv TTY interface), together with proofs of the specification claims about
it.

The embedding has two parts.

First, an operating-system model: every libuv TTY call made by tty.hpp
(uv_tty_init through the generic initialize glue, uv_tty_set_mode,
uv_tty_reset_mode, uv_tty_get_winsize, uv_tty_set_vterm_state,
uv_tty_get_vterm_state) is modelled as a pure function on an OS record.
Return codes of the OS calls are oracle fields of the record, since they are
decided by the environment, not by the repository code; each call also
appends a description of itself to a call trace so that theorems can state
which OS call a method performs.  Terminal-global state (the current terminal
mode, the virtual-terminal processing flag) is carried in the record; a call
that the libuv documentation declares a silent no-op on platforms without
support (vterm handling outside Windows) leaves that state unchanged.

Second, the guard state machine: the static weak_ptr of
TTYHandle::resetModeMemo together with the shared_ptr ResetModeMemo members
of the live handles form a small reference-counting system.  A Sys record
carries the id of the guard the weak_ptr points at, the multiset (list) of
memo ids held by live handles, and the ordered list of guard ids whose
destructor (which runs uv_tty_reset_mode) has executed.  Handle construction
and destruction are the transitions; TTYHandle::init is also a transition and
leaves the guard state untouched, exactly as in the source, where init()
only calls the OS through the stored descriptor and readability flag.
-/

set_option autoImplicit false

namespace UvwTTY

/-- Embedding of enum class UVTTYModeT (tty.hpp lines 24 to 28).  A C++
scoped enumeration is a named wrapper around its underlying integral type,
so it is modelled as a one-field structure; the named enumerators carry the
libuv values UV_TTY_MODE_NORMAL = 0, UV_TTY_MODE_RAW = 1, UV_TTY_MODE_IO = 2. -/
structure UVTTYModeT where
  val : Nat
deriving DecidableEq, Repr

/-- Enumerator UVTTYModeT::NORMAL = UV_TTY_MODE_NORMAL. -/
def UVTTYModeT.NORMAL : UVTTYModeT := ⟨0⟩

/-- Enumerator UVTTYModeT::RAW = UV_TTY_MODE_RAW. -/
def UVTTYModeT.RAW : UVTTYModeT := ⟨1⟩

/-- Enumerator UVTTYModeT::IO = UV_TTY_MODE_IO (named ioMode here because
the source spelling collides with a reserved Lean name). -/
def UVTTYModeT.ioMode : UVTTYModeT := ⟨2⟩

/-- Embedding of enum class UVTTYVTermStateT (tty.hpp lines 31 to 34), with
the libuv values UV_TTY_SUPPORTED = 0, UV_TTY_UNSUPPORTED = 1. -/
structure UVTTYVTermStateT where
  val : Nat
deriving DecidableEq, Repr

/-- Enumerator UVTTYVTermStateT::SUPPORTED = UV_TTY_SUPPORTED. -/
def UVTTYVTermStateT.SUPPORTED : UVTTYVTermStateT := ⟨0⟩

/-- Enumerator UVTTYVTermStateT::UNSUPPORTED = UV_TTY_UNSUPPORTED. -/
def UVTTYVTermStateT.UNSUPPORTED : UVTTYVTermStateT := ⟨1⟩

/-- Modelled from the spec: the WinSize value type lives in util.hpp, which
is not part of the provided sources.  The spec describes it as a plain value
with signed integer width and height fields. -/
structure WinSize where
  width : Int
  height : Int
deriving DecidableEq, Repr

/-- One OS call made by the code in tty.hpp, as recorded in the call trace
of the OS model.  Arguments record what the code passes: the descriptor and
readability for uv_tty_init, the descriptor and the cast mode value for
uv_tty_set_mode, the underlying vterm state value for uv_tty_set_vterm_state. -/
inductive OSCall where
  | ttyInit (fd : Int) (rw : Int)
  | setMode (fd : Int) (m : Nat)
  | resetMode
  | getWinsize (fd : Int)
  | setVtermState (v : Nat)
  | getVtermState
deriving DecidableEq, Repr

/-- The operating-system model.  The first three fields are oracles for the
return codes of the corresponding libuv calls (the environment decides them);
winsizeRes is some (w, h) when uv_tty_get_winsize succeeds reporting that
geometry and none when it fails; vtermMeaningful says whether the platform
implements the vterm calls (Windows) or treats them as no-ops (Unix);
vtermProcessing and termMode are the terminal-global state the calls act on;
calls is the trace of OS calls performed so far. -/
structure OS where
  initCode : Int → Int → Int
  setModeCode : Int → Nat → Int
  resetCode : Int
  winsizeRes : Option (Int × Int)
  vtermMeaningful : Bool
  vtermProcessing : Nat
  termMode : Nat
  calls : List OSCall

/-- Model of uv_tty_reset_mode: returns the oracle code; on success the
terminal mode goes back to the default UV_TTY_MODE_NORMAL = 0. -/
def OS.uv_tty_reset_mode (os : OS) : Int × OS :=
  (os.resetCode,
   { os with
      termMode := if os.resetCode = 0 then 0 else os.termMode,
      calls := os.calls ++ [OSCall.resetMode] })

/-- Model of uv_tty_set_mode on the handle bound to descriptor fd: returns
the oracle code for that descriptor and mode; on success the terminal-global
mode becomes m. -/
def OS.uv_tty_set_mode (os : OS) (fd : Int) (m : Nat) : Int × OS :=
  (os.setModeCode fd m,
   { os with
      termMode := if os.setModeCode fd m = 0 then m else os.termMode,
      calls := os.calls ++ [OSCall.setMode fd m] })

/-- Model of uv_tty_get_winsize on the handle bound to descriptor fd.  The
two Int arguments are the values of the caller's out-parameters before the
call (the uninitialized WinSize fields): on success the call writes the
reported geometry over them and returns 0, on failure it returns a nonzero
code (libuv returns a negative error) and leaves them untouched. -/
def OS.uv_tty_get_winsize (os : OS) (fd : Int) (jw jh : Int) :
    Int × Int × Int × OS :=
  match os.winsizeRes with
  | some (w, h) => (0, w, h, { os with calls := os.calls ++ [OSCall.getWinsize fd] })
  | none => (-1, jw, jh, { os with calls := os.calls ++ [OSCall.getWinsize fd] })

/-- Model of uv_tty_set_vterm_state: returns void; on platforms where vterm
handling is meaningful it sets the processing state to v, elsewhere it is a
silent no-op on the terminal state (the call itself still happens and is
traced). -/
def OS.uv_tty_set_vterm_state (os : OS) (v : Nat) : OS :=
  { os with
      vtermProcessing := if os.vtermMeaningful then v else os.vtermProcessing,
      calls := os.calls ++ [OSCall.setVtermState v] }

/-- Model of uv_tty_get_vterm_state.  The junk argument is the value of the
caller's out-parameter before the call (an uninitialized local in the
source).  Where the platform implements the call it returns 0 and writes the
current processing state; elsewhere it returns a nonzero code (standing for
UV_ENOTSUP) and never writes the out-parameter, so the junk value survives. -/
def OS.uv_tty_get_vterm_state (os : OS) (junk : Nat) : Int × Nat × OS :=
  if os.vtermMeaningful
  then (0, os.vtermProcessing, { os with calls := os.calls ++ [OSCall.getVtermState] })
  else (-1, junk, { os with calls := os.calls ++ [OSCall.getVtermState] })

/-- The guard state machine distilled from TTYHandle::resetModeMemo
(tty.hpp lines 59 to 64) and the shared_ptr member memo (line 181):
nextId numbers the ResetModeMemo instances ever created, 0, 1, 2, ... in
creation order; weakTarget is the guard the static weak_ptr points at (none
before the first creation); handles lists, in construction order, the memo
id held by each live TTYHandle; resets lists, in execution order, the ids of
the guards whose destructor (uv_tty_reset_mode, lines 17 to 21) has run. -/
structure Sys where
  nextId : Nat
  weakTarget : Option Nat
  handles : List Nat
  resets : List Nat
deriving DecidableEq, Repr

/-- The process state before any TTYHandle exists. -/
def Sys.start : Sys := ⟨0, none, [], []⟩

/-- Embedding of weak.lock() inside resetModeMemo: it yields the guard the
weak_ptr points at provided that guard is still alive, that is, still held
by at least one live handle (each live holder is a shared_ptr reference). -/
def Sys.lockMemo (s : Sys) : Option Nat :=
  match s.weakTarget with
  | none => none
  | some g => if 0 < s.handles.count g then some g else none

/-- Embedding of the data members of TTYHandle (tty.hpp lines 180 to 184):
memo identifies the shared ResetModeMemo instance this handle holds, fd is
the stored FileHandle::Type descriptor, rw the int readability flag. -/
structure TTYHandle where
  memo : Nat
  fd : Int
  rw : Int
deriving DecidableEq, Repr

/-- Embedding of the TTYHandle constructor (tty.hpp lines 70 to 75): it
calls resetModeMemo() - lock the static weak_ptr, and if that fails make a
fresh ResetModeMemo and repoint the weak_ptr at it - stores the resulting
shared reference in memo, and stores the descriptor in fd and the
readability flag in rw (int from bool).  The new handle's memo id is
appended to the live-handle list of the guard system. -/
def TTYHandle.construct (s : Sys) (desc : Int) (readable : Bool) :
    TTYHandle × Sys :=
  match s.lockMemo with
  | some g =>
      (⟨g, desc, if readable then 1 else 0⟩,
       { s with handles := s.handles ++ [g] })
  | none =>
      (⟨s.nextId, desc, if readable then 1 else 0⟩,
       { s with
          nextId := s.nextId + 1,
          weakTarget := some s.nextId,
          handles := s.handles ++ [s.nextId] })

/-- The guard-system effect of constructing one TTYHandle (the descriptor
and readability play no role in it). -/
def Sys.ctor (s : Sys) : Sys := (TTYHandle.construct s 0 true).2

/-- The guard-system effect of destroying the i-th live handle (indices into
the construction-ordered list of live handles): its shared_ptr member memo
releases one reference to its guard, and when that was the last reference
the guard's destructor runs uv_tty_reset_mode, recorded by appending the
guard's id to resets.  An out-of-range index corresponds to no handle and
changes nothing. -/
def Sys.dtor (s : Sys) (i : Nat) : Sys :=
  if h : i < s.handles.length then
    if (s.handles.eraseIdx i).count (s.handles.get ⟨i, h⟩) = 0 then
      { s with
         handles := s.handles.eraseIdx i,
         resets := s.resets ++ [s.handles.get ⟨i, h⟩] }
    else { s with handles := s.handles.eraseIdx i }
  else s

/-- The lifecycle events of the guard system: constructing a handle,
destroying the i-th live handle, and calling init() on the i-th live handle.
init() (tty.hpp lines 81 to 83) only runs the OS binding call with the
stored descriptor and readability; it never touches the memo member or the
static weak_ptr, so its guard-system effect is the identity. -/
inductive TTYEv where
  | construct : TTYEv
  | destruct : Nat → TTYEv
  | initEv : Nat → TTYEv
deriving DecidableEq, Repr

/-- One guard-system step. -/
def Sys.step (s : Sys) : TTYEv → Sys
  | TTYEv.construct => s.ctor
  | TTYEv.destruct i => s.dtor i
  | TTYEv.initEv _ => s

/-- Run a list of lifecycle events from the initial process state. -/
def Sys.run (es : List TTYEv) : Sys :=
  es.foldl Sys.step Sys.start

/-- The number of independent guard lifecycles begun so far: nextId grows by
one exactly when a constructor finds no live guard and creates one, the
transition the spec writes NoInstance to Live. -/
def Sys.guardsCreated (s : Sys) : Nat := s.nextId

/-- Embedding of bool TTYHandle::init() (tty.hpp lines 81 to 83).  The body
delegates to the generic glue of the stream/handle base, passing uv_tty_init
and the stored fd and rw members.  Modelled from the spec: that glue lives in
stream.hpp and underlying.hpp, which are not part of the provided sources;
the spec describes it as performing the OS binding call for the stored
descriptor and readability and returning true exactly on OS success.  The
method returns the boolean together with the unchanged handle and the OS
state after the call. -/
def TTYHandle.init (t : TTYHandle) (os : OS) : Bool × TTYHandle × OS :=
  (os.initCode t.fd t.rw == 0, t,
   { os with calls := os.calls ++ [OSCall.ttyInit t.fd t.rw] })

/-- Embedding of bool TTYHandle::mode(Mode m) (tty.hpp lines 101 to 103):
return 0 == uv_tty_set_mode(get(), static_cast to the underlying value of m).
get() is the libuv handle bound to the stored descriptor. -/
def TTYHandle.mode (t : TTYHandle) (m : UVTTYModeT) (os : OS) :
    Bool × TTYHandle × OS :=
  let r := os.uv_tty_set_mode t.fd m.val
  (r.1 == 0, t, r.2)

/-- Embedding of bool TTYHandle::reset() noexcept (tty.hpp lines 109 to
111): return 0 == uv_tty_reset_mode(). -/
def TTYHandle.reset (t : TTYHandle) (os : OS) : Bool × TTYHandle × OS :=
  let r := os.uv_tty_reset_mode
  (r.1 == 0, t, r.2)

/-- Embedding of WinSize TTYHandle::getWinSize() (tty.hpp lines 117 to 126):
declare an uninitialized WinSize (its fields before the call are the junk
arguments jw, jh), pass pointers to its fields to uv_tty_get_winsize, and if
the call returned nonzero overwrite both fields with -1. -/
def TTYHandle.getWinSize (t : TTYHandle) (os : OS) (jw jh : Int) :
    WinSize × TTYHandle × OS :=
  let r := os.uv_tty_get_winsize t.fd jw jh
  let size : WinSize :=
    if r.1 ≠ 0 then { width := -1, height := -1 }
    else { width := r.2.1, height := r.2.2.1 }
  (size, t, r.2.2.2)

/-- Embedding of void TTYHandle::vtermState(VTermState s) const noexcept
(tty.hpp lines 146 to 155): a switch on s with a case for each enumerator
calling uv_tty_set_vterm_state with the matching libuv constant, and no
default case, so any other underlying value falls through performing no
call. -/
def TTYHandle.vtermStateSet (t : TTYHandle) (s : UVTTYVTermStateT) (os : OS) :
    TTYHandle × OS :=
  if s = UVTTYVTermStateT.SUPPORTED then (t, os.uv_tty_set_vterm_state 0)
  else if s = UVTTYVTermStateT.UNSUPPORTED then (t, os.uv_tty_set_vterm_state 1)
  else (t, os)

/-- Embedding of VTermState TTYHandle::vtermState() const noexcept (tty.hpp
lines 174 to 178): declare an uninitialized uv_tty_vtermstate_t local (its
value before the call is the junk argument), call uv_tty_get_vterm_state on
its address discarding the returned status code, and wrap whatever the local
now holds in VTermState. -/
def TTYHandle.vtermStateGet (t : TTYHandle) (os : OS) (junk : Nat) :
    UVTTYVTermStateT × TTYHandle × OS :=
  let r := os.uv_tty_get_vterm_state junk
  (⟨r.2.1⟩, t, r.2.2)

/-- A concrete OS environment used to instantiate theorems: every call
succeeds, the window-size query reports 80 by 24, and the platform is a Unix
one (vterm calls are no-ops). -/
def osTerm : OS :=
  { initCode := fun _ _ => 0,
    setModeCode := fun _ _ => 0,
    resetCode := 0,
    winsizeRes := some (80, 24),
    vtermMeaningful := false,
    vtermProcessing := 0,
    termMode := 0,
    calls := [] }

/-- The reachable-state invariant of the guard system.  Either no handle is
live, every guard created so far (ids 0 to nextId - 1) has had its reset
executed exactly once and in creation order, and the weak_ptr still points
at the most recently created guard (or nowhere when none was ever created);
or at least one handle is live, every live handle holds the most recently
created guard nextId - 1, the weak_ptr points at it, and exactly the older
guards 0 to nextId - 2 have been reset, in order. -/
def Inv (s : Sys) : Prop :=
  (s.handles = [] ∧ s.resets = List.range s.nextId ∧
     s.weakTarget = if s.nextId = 0 then none else some (s.nextId - 1))
  ∨ (0 < s.nextId ∧ s.handles ≠ [] ∧ (∀ g ∈ s.handles, g = s.nextId - 1) ∧
     s.weakTarget = some (s.nextId - 1) ∧ s.resets = List.range (s.nextId - 1))

/-- With no live handle the weak_ptr lock fails, whatever it points at. -/
theorem lockMemo_of_empty (s : Sys) (h : s.handles = []) : s.lockMemo = none := by
  unfold Sys.lockMemo
  cases hw : s.weakTarget with
  | none => rfl
  | some g => simp [h]

/-- The invariant holds in the initial process state. -/
theorem inv_start : Inv Sys.start := by
  left
  exact ⟨rfl, rfl, by simp [Sys.start]⟩

/-- Handle construction preserves the invariant. -/
theorem inv_ctor {s : Sys} (h : Inv s) : Inv s.ctor := by
  rcases h with ⟨h1, h2, h3⟩ | ⟨h0, h1, h2, h3, h4⟩
  · -- no live handle: the lock fails and a fresh guard is created
    have hl : s.lockMemo = none := lockMemo_of_empty s h1
    right
    simp only [Sys.ctor, TTYHandle.construct, hl]
    refine ⟨Nat.succ_pos _, by simp, ?_, by simp, by simpa using h2⟩
    intro g hg
    rw [h1] at hg
    simpa using hg
  · -- some handle is live: the lock succeeds on the current guard
    have hm : s.nextId - 1 ∈ s.handles := by
      obtain ⟨a, ha⟩ := List.exists_mem_of_ne_nil s.handles h1
      have := h2 a ha
      rwa [this] at ha
    have hl : s.lockMemo = some (s.nextId - 1) := by
      unfold Sys.lockMemo
      rw [h3]
      simp [List.count_pos_iff.mpr hm]
    right
    simp only [Sys.ctor, TTYHandle.construct, hl]
    refine ⟨h0, by simp, ?_, h3, h4⟩
    intro g hg
    rcases List.mem_append.mp hg with hg | hg
    · exact h2 g hg
    · simpa using hg

/-- Handle destruction preserves the invariant. -/
theorem inv_dtor {s : Sys} (h : Inv s) (i : Nat) : Inv (s.dtor i) := by
  by_cases hi : i < s.handles.length
  case neg => simpa [Sys.dtor, hi] using h
  case pos =>
    rcases h with ⟨h1, h2, h3⟩ | ⟨h0, h1, h2, h3, h4⟩
    · rw [h1] at hi
      simp at hi
    · have hg : s.handles.get ⟨i, hi⟩ = s.nextId - 1 :=
        h2 _ (s.handles.get_mem i hi)
      have hsub := List.eraseIdx_sublist s.handles i
      have hall : ∀ x ∈ s.handles.eraseIdx i, x = s.nextId - 1 :=
        fun x hx => h2 x (hsub.mem hx)
      unfold Sys.dtor
      rw [dif_pos hi]
      by_cases hc : (s.handles.eraseIdx i).count (s.handles.get ⟨i, hi⟩) = 0
      · -- last holder: the guard dies and its reset runs
        rw [if_pos hc]
        left
        have hnil : s.handles.eraseIdx i = [] := by
          by_contra hne
          obtain ⟨a, ha⟩ := List.exists_mem_of_ne_nil _ hne
          rw [hall a ha, ← hg] at ha
          have := List.count_pos_iff.mpr ha
          omega
        refine ⟨by simpa using hnil, ?_, ?_⟩
        · show s.resets ++ [s.handles.get ⟨i, hi⟩] = List.range s.nextId
          rw [hg, h4, ← List.range_succ]
          congr 1
          omega
        · show s.weakTarget = if s.nextId = 0 then none else some (s.nextId - 1)
          rw [h3, if_neg (Nat.pos_iff_ne_zero.mp h0)]
      · -- other holders remain: only the count drops
        rw [if_neg hc]
        right
        have hmem : s.handles.get ⟨i, hi⟩ ∈ s.handles.eraseIdx i :=
          List.count_pos_iff.mp (Nat.pos_of_ne_zero hc)
        exact ⟨h0, List.ne_nil_of_mem hmem, hall, h3, h4⟩

/-- Every lifecycle event preserves the invariant. -/
theorem inv_step {s : Sys} (h : Inv s) (e : TTYEv) : Inv (s.step e) := by
  cases e with
  | construct => exact inv_ctor h
  | destruct i => exact inv_dtor h i
  | initEv i => exact h

/-- The invariant is preserved along any event list. -/
theorem inv_foldl (es : List TTYEv) : ∀ s : Sys, Inv s → Inv (es.foldl Sys.step s) := by
  induction es with
  | nil => intro s h; exact h
  | cons e es ih => intro s h; exact ih _ (inv_step h e)

/-- Every reachable state of the guard system satisfies the invariant. -/
theorem inv_run (es : List TTYEv) : Inv (Sys.run es) :=
  inv_foldl es Sys.start inv_start

/-- Claim C1: for any number of TTYHandle instances constructed and later
destroyed in any order or interleaving, the reset action (uv_tty_reset_mode
run by the ResetModeMemo destructor) executes exactly once per independent
guard lifecycle: along any event list the resets list never repeats a guard
(never more than once per guard), once all handles are destroyed the resets
are exactly the guards whose lifecycle was ever begun, each once (never
zero), and two disjoint non-overlapping lifecycles produce two resets. -/
theorem claim_C1 (es : List TTYEv) :
    (Sys.run es).resets.Nodup ∧
    ((Sys.run es).handles = [] →
      (Sys.run es).resets = List.range (Sys.run es).guardsCreated) ∧
    (Sys.run [TTYEv.construct, TTYEv.destruct 0,
              TTYEv.construct, TTYEv.destruct 0]).resets.length = 2 := by
  have h := inv_run es
  refine ⟨?_, ?_, by decide⟩
  · rcases h with ⟨h1, h2, h3⟩ | ⟨h0, h1, h2, h3, h4⟩
    · rw [h2]; exact List.nodup_range _
    · rw [h4]; exact List.nodup_range _
  · intro hnil
    rcases h with ⟨h1, h2, h3⟩ | ⟨h0, h1, h2, h3, h4⟩
    · exact h2
    · exact absurd hnil h1

/-- Witness for claim C1 at a concrete run: one handle constructed and
destroyed, the lifecycle is complete and the single created guard was reset
exactly once. -/
theorem claim_C1_witness :
    (Sys.run [TTYEv.construct, TTYEv.destruct 0]).resets =
      List.range (Sys.run [TTYEv.construct, TTYEv.destruct 0]).guardsCreated :=
  (claim_C1 [TTYEv.construct, TTYEv.destruct 0]).2.1 (by decide)

/-- Claim C2: in every reachable state at most one ResetModeMemo instance is
live - all live handles hold the same memo id - and while at least one
TTYHandle is alive there is exactly one such instance: every live handle's
memo is that instance and the static weak_ptr points at it. -/
theorem claim_C2 (es : List TTYEv) :
    (∀ a ∈ (Sys.run es).handles, ∀ b ∈ (Sys.run es).handles, a = b) ∧
    ((Sys.run es).handles ≠ [] →
      ∃ g, (∀ a ∈ (Sys.run es).handles, a = g) ∧
           (Sys.run es).weakTarget = some g) := by
  have h := inv_run es
  rcases h with ⟨h1, h2, h3⟩ | ⟨h0, h1, h2, h3, h4⟩
  · constructor
    · intro a ha
      rw [h1] at ha
      simp at ha
    · intro hne
      exact absurd h1 hne
  · constructor
    · intro a ha b hb
      rw [h2 a ha, h2 b hb]
    · intro _
      exact ⟨(Sys.run es).nextId - 1, h2, h3⟩

/-- Witness for claim C2 at a concrete run with one live handle: exactly one
guard instance exists and the handle holds it. -/
theorem claim_C2_witness :
    ∃ g, (∀ a ∈ (Sys.run [TTYEv.construct]).handles, a = g) ∧
         (Sys.run [TTYEv.construct]).weakTarget = some g :=
  (claim_C2 [TTYEv.construct]).2 (by decide)

/-- Claim C10: every TTYHandle acquires its guard reference in its
constructor, before and independently of init(): the init event is the
identity on the guard system, construction always adds one holder, a handle
that is never initialized still triggers the reset on destruction when it is
the last holder, and a run with an init event has exactly the guard
behaviour of the same run without it. -/
theorem claim_C10 :
    (∀ (s : Sys) (i : Nat), s.step (TTYEv.initEv i) = s) ∧
    (∀ s : Sys, (s.step TTYEv.construct).handles.length = s.handles.length + 1) ∧
    (Sys.run [TTYEv.construct, TTYEv.destruct 0]).resets.length = 1 ∧
    Sys.run [TTYEv.construct, TTYEv.initEv 0, TTYEv.destruct 0] =
      Sys.run [TTYEv.construct, TTYEv.destruct 0] := by
  refine ⟨fun s i => rfl, ?_, by decide, by decide⟩
  intro s
  show s.ctor.handles.length = s.handles.length + 1
  unfold Sys.ctor TTYHandle.construct
  cases hl : s.lockMemo <;> simp [hl]

/-- Claim C4: getWinSize() returns the pair reported by the OS query when it
succeeds and exactly (-1, -1) when it fails, whatever junk the uninitialized
struct held; under the environment fact that a successful query reports
nonnegative dimensions, the result always has both fields valid (at least 0)
or both the sentinel -1, never a mix. -/
theorem claim_C4 (t : TTYHandle) (os : OS) (jw jh : Int)
    (hpos : ∀ w h, os.winsizeRes = some (w, h) → 0 ≤ w ∧ 0 ≤ h) :
    (os.winsizeRes = none → (t.getWinSize os jw jh).1 = ⟨-1, -1⟩) ∧
    (∀ w h, os.winsizeRes = some (w, h) → (t.getWinSize os jw jh).1 = ⟨w, h⟩) ∧
    ((0 ≤ (t.getWinSize os jw jh).1.width ∧ 0 ≤ (t.getWinSize os jw jh).1.height) ∨
     ((t.getWinSize os jw jh).1.width = -1 ∧ (t.getWinSize os jw jh).1.height = -1)) := by
  cases hres : os.winsizeRes with
  | none =>
      refine ⟨fun _ => ?_, fun w h hw => ?_, ?_⟩
      · simp [TTYHandle.getWinSize, OS.uv_tty_get_winsize, hres]
      · simp at hw
      · right
        simp [TTYHandle.getWinSize, OS.uv_tty_get_winsize, hres]
  | some p =>
      obtain ⟨w, h⟩ := p
      have hwh := hpos w h hres
      refine ⟨fun hnone => ?_, fun w2 h2 hw2 => ?_, ?_⟩
      · simp at hnone
      · have hww : w = w2 ∧ h = h2 := by
          injection hw2 with hp
          exact (Prod.mk.injEq _ _ _ _).mp hp
        obtain ⟨hw, hh⟩ := hww
        subst hw
        subst hh
        simp [TTYHandle.getWinSize, OS.uv_tty_get_winsize, hres]
      · left
        refine ⟨?_, ?_⟩
        · simpa [TTYHandle.getWinSize, OS.uv_tty_get_winsize, hres] using hwh.1
        · simpa [TTYHandle.getWinSize, OS.uv_tty_get_winsize, hres] using hwh.2

/-- Witness for claim C4: a concrete environment reporting 80 by 24 on
success, evaluated on a concrete handle and junk values. -/
theorem claim_C4_witness :
    (osTerm.winsizeRes = none →
      (TTYHandle.getWinSize ⟨0, 0, 1⟩ osTerm 5 7).1 = ⟨-1, -1⟩) ∧
    (∀ w h, osTerm.winsizeRes = some (w, h) →
      (TTYHandle.getWinSize ⟨0, 0, 1⟩ osTerm 5 7).1 = ⟨w, h⟩) ∧
    ((0 ≤ (TTYHandle.getWinSize ⟨0, 0, 1⟩ osTerm 5 7).1.width ∧
      0 ≤ (TTYHandle.getWinSize ⟨0, 0, 1⟩ osTerm 5 7).1.height) ∨
     ((TTYHandle.getWinSize ⟨0, 0, 1⟩ osTerm 5 7).1.width = -1 ∧
      (TTYHandle.getWinSize ⟨0, 0, 1⟩ osTerm 5 7).1.height = -1)) :=
  claim_C4 ⟨0, 0, 1⟩ osTerm 5 7 (by
    intro w h hw
    simp only [osTerm] at hw
    injection hw with hp
    have := (Prod.mk.injEq _ _ _ _).mp hp
    omega)

/-- Claim C5: for every mode m, mode(m) returns true exactly when the OS
call uv_tty_set_mode on the handle's descriptor with the cast underlying
value of m returns 0; it performs exactly that one OS call, leaves the
handle unchanged, and the enumerators carry the libuv constants
UV_TTY_MODE_NORMAL = 0, UV_TTY_MODE_RAW = 1, UV_TTY_MODE_IO = 2. -/
theorem claim_C5 (t : TTYHandle) (m : UVTTYModeT) (os : OS) :
    ((t.mode m os).1 = true ↔ os.setModeCode t.fd m.val = 0) ∧
    (t.mode m os).2.1 = t ∧
    (t.mode m os).2.2.calls = os.calls ++ [OSCall.setMode t.fd m.val] ∧
    UVTTYModeT.NORMAL.val = 0 ∧ UVTTYModeT.RAW.val = 1 ∧
    UVTTYModeT.ioMode.val = 2 := by
  refine ⟨?_, rfl, rfl, rfl, rfl, rfl⟩
  simp [TTYHandle.mode, OS.uv_tty_set_mode]

/-- Claim C6: reset() is idempotent - a second call finds the terminal in
the state the first call left and leaves both the outcome and the terminal
state unchanged - each call returns true exactly when uv_tty_reset_mode
returns 0, a successful call leaves the terminal in the default mode, and
the call neither touches the handle (so not its guard reference) nor any
other terminal state. -/
theorem claim_C6 (t : TTYHandle) (os : OS) :
    ((t.reset os).1 = true ↔ os.resetCode = 0) ∧
    (t.reset os).2.1 = t ∧
    (os.resetCode = 0 → (t.reset os).2.2.termMode = 0) ∧
    (t.reset ((t.reset os).2.2)).1 = (t.reset os).1 ∧
    (t.reset ((t.reset os).2.2)).2.2.termMode = (t.reset os).2.2.termMode ∧
    (t.reset ((t.reset os).2.2)).2.2.vtermProcessing = os.vtermProcessing := by
  by_cases hc : os.resetCode = 0 <;>
    simp [TTYHandle.reset, OS.uv_tty_reset_mode, hc]

/-- Witness for claim C6 in the concrete all-success environment: the
successful reset leaves the terminal in the default mode. -/
theorem claim_C6_witness :
    (TTYHandle.reset ⟨0, 0, 1⟩ osTerm).2.2.termMode = 0 :=
  (claim_C6 ⟨0, 0, 1⟩ osTerm).2.2.1 rfl

/-- Claim C7: for each value of the closed VTermState enumeration the setter
is a total function returning only the updated state (never an error),
performs exactly the one OS toggle call with the matching libuv constant,
leaves the handle unchanged, and on platforms where virtual-terminal
processing is not meaningful leaves the terminal state untouched (silent
no-op). -/
theorem claim_C7 (t : TTYHandle) (s : UVTTYVTermStateT) (os : OS)
    (hs : s = UVTTYVTermStateT.SUPPORTED ∨ s = UVTTYVTermStateT.UNSUPPORTED) :
    (t.vtermStateSet s os).1 = t ∧
    (t.vtermStateSet s os).2.calls = os.calls ++ [OSCall.setVtermState s.val] ∧
    (os.vtermMeaningful = false →
      (t.vtermStateSet s os).2.vtermProcessing = os.vtermProcessing) ∧
    (t.vtermStateSet s os).2.termMode = os.termMode := by
  rcases hs with hs | hs <;> subst hs <;>
    refine ⟨rfl, ?_, fun hplat => ?_, ?_⟩ <;>
    simp [TTYHandle.vtermStateSet, OS.uv_tty_set_vterm_state,
      UVTTYVTermStateT.SUPPORTED, UVTTYVTermStateT.UNSUPPORTED, *]

/-- Witness for claim C7: the setter applied with SUPPORTED on a Unix-like
concrete environment. -/
theorem claim_C7_witness :
    (TTYHandle.vtermStateSet ⟨0, 0, 1⟩ UVTTYVTermStateT.SUPPORTED osTerm).1 = ⟨0, 0, 1⟩ ∧
    (TTYHandle.vtermStateSet ⟨0, 0, 1⟩ UVTTYVTermStateT.SUPPORTED osTerm).2.calls =
      osTerm.calls ++ [OSCall.setVtermState UVTTYVTermStateT.SUPPORTED.val] ∧
    (osTerm.vtermMeaningful = false →
      (TTYHandle.vtermStateSet ⟨0, 0, 1⟩ UVTTYVTermStateT.SUPPORTED osTerm).2.vtermProcessing =
        osTerm.vtermProcessing) ∧
    (TTYHandle.vtermStateSet ⟨0, 0, 1⟩ UVTTYVTermStateT.SUPPORTED osTerm).2.termMode =
      osTerm.termMode :=
  claim_C7 ⟨0, 0, 1⟩ UVTTYVTermStateT.SUPPORTED osTerm (Or.inl rfl)

/-- Claim C8: the descriptor and readability flag are fixed at construction
- the constructor stores exactly the supplied values - and every operation
of the handle returns the handle with all fields, fd and rw included,
unchanged; init() performs the OS binding call with exactly the stored fd
and rw. -/
theorem claim_C8 (s : Sys) (desc : Int) (readable : Bool) (os : OS)
    (m : UVTTYModeT) (v : UVTTYVTermStateT) (jw jh : Int) (junk : Nat) :
    (TTYHandle.construct s desc readable).1.fd = desc ∧
    (TTYHandle.construct s desc readable).1.rw = (if readable then 1 else 0) ∧
    (∀ t : TTYHandle,
      (t.init os).2.1 = t ∧
      (t.init os).2.2.calls = os.calls ++ [OSCall.ttyInit t.fd t.rw] ∧
      (t.mode m os).2.1 = t ∧
      (t.reset os).2.1 = t ∧
      (t.getWinSize os jw jh).2.1 = t ∧
      (t.vtermStateSet v os).1 = t ∧
      (t.vtermStateGet os junk).2.1 = t) := by
  refine ⟨?_, ?_, fun t => ⟨rfl, rfl, rfl, rfl, rfl, ?_, rfl⟩⟩
  · cases hl : s.lockMemo <;> simp [TTYHandle.construct, hl]
  · cases hl : s.lockMemo <;> simp [TTYHandle.construct, hl]
  · unfold TTYHandle.vtermStateSet
    split
    · rfl
    · split <;> rfl

/-- Claim C9: the vtermState() accessor discards the status code of
uv_tty_get_vterm_state: on a platform where the query fails (Unix) the
returned value is built from the local the call never wrote - it equals the
junk the local held, so two junk values give two different answers - and
there is a succeeding environment producing the same observable answer, so
the caller cannot tell the failure apart from success. -/
theorem claim_C9 (t : TTYHandle) (os : OS) (junk : Nat)
    (hplat : os.vtermMeaningful = false) :
    (t.vtermStateGet os junk).1 = ⟨junk⟩ ∧
    (t.vtermStateGet os 0).1 ≠ (t.vtermStateGet os 1).1 ∧
    (∃ os2 : OS, os2.vtermMeaningful = true ∧
      (t.vtermStateGet os2 junk).1 = (t.vtermStateGet os junk).1) := by
  refine ⟨?_, ?_,
    ⟨{ os with vtermMeaningful := true, vtermProcessing := junk }, rfl, ?_⟩⟩ <;>
    simp [TTYHandle.vtermStateGet, OS.uv_tty_get_vterm_state, hplat]

/-- Witness for claim C9 on the concrete Unix-like environment with junk
value 3. -/
theorem claim_C9_witness :
    (TTYHandle.vtermStateGet ⟨0, 0, 1⟩ osTerm 3).1 = ⟨3⟩ ∧
    (TTYHandle.vtermStateGet ⟨0, 0, 1⟩ osTerm 0).1 ≠
      (TTYHandle.vtermStateGet ⟨0, 0, 1⟩ osTerm 1).1 ∧
    (∃ os2 : OS, os2.vtermMeaningful = true ∧
      (TTYHandle.vtermStateGet ⟨0, 0, 1⟩ os2 3).1 =
        (TTYHandle.vtermStateGet ⟨0, 0, 1⟩ osTerm 3).1) :=
  claim_C9 ⟨0, 0, 1⟩ osTerm 3 rfl

end UvwTTY
